import Mathlib

/-!
Shallow embedding of the transaction monitor in `src/transaction_monitor/mod.rs`
(crate `relay`).  Machine integers of type `U256` (ethers) are modelled as `Nat`
together with explicit checks: the ethers `U256` arithmetic operators panic on
overflow and underflow, which we model by returning `none`.  The Rust `Vec` of
pending transactions is modelled as a `List` whose HEAD is the END of the
vector, so `Vec::pop` is taking the head and `Vec::push` is consing; this is an
order-reversing but faithful representation of the stack discipline the loop
in `monitor` actually uses.
-/

namespace Relay

/-- Upper bound (exclusive) of the 256-bit unsigned integer type `U256`. -/
def U256_LIMIT : Nat := 2 ^ 256

/-- Checked `U256` addition; ethers' `+` panics (here: `none`) on overflow. -/
def chkAdd (a b : Nat) : Option Nat :=
  if a + b < U256_LIMIT then some (a + b) else none

/-- Checked `U256` subtraction; ethers' `-` panics (here: `none`) on underflow. -/
def chkSub (a b : Nat) : Option Nat :=
  if b ≤ a then some (a - b) else none

/-- Checked `U256` multiplication; ethers' `*` panics (here: `none`) on overflow. -/
def chkMul (a b : Nat) : Option Nat :=
  if a * b < U256_LIMIT then some (a * b) else none

/-- `TransactionMonitor::increase_by_minimum` (mod.rs lines 251-254):
`let increase = (value * 10) / 100u64; value + increase + 1`. -/
def increase_by_minimum (value : Nat) : Option Nat :=
  match chkMul value 10 with
  | none => none
  | some p =>
    match chkAdd value (p / 100) with
    | none => none
    | some s => chkAdd s 1

/-- `ethers::types::Eip1559TransactionRequest`.  Addresses, hashes, byte
payloads and the access list are abstracted to numbers / lists of numbers;
the Rust fields `from` and `to` are renamed `fromAddress` and `toAddress`
(`from` and `to` are Lean keywords). -/
structure Eip1559TransactionRequest where
  fromAddress : Option Nat
  toAddress : Option Nat
  gas : Option Nat
  value : Option Nat
  data : Option (List Nat)
  nonce : Option Nat
  access_list : List Nat
  max_priority_fee_per_gas : Option Nat
  max_fee_per_gas : Option Nat
  chain_id : Option Nat
deriving DecidableEq, Repr

/-- `TransactionMonitor::bump_transaction` (mod.rs lines 222-246).  The Rust
function mutates `tx` in place; here the updated request is returned, `none`
standing for a `U256` arithmetic panic. -/
def bump_transaction (tx : Eip1559TransactionRequest)
    (estimate_max_fee estimate_max_priority_fee : Nat) :
    Option Eip1559TransactionRequest :=
  let prev_max_priority_fee :=
    tx.max_priority_fee_per_gas.getD estimate_max_priority_fee
  let prev_max_fee := tx.max_fee_per_gas.getD estimate_max_fee
  match increase_by_minimum prev_max_priority_fee with
  | none => none
  | some bumped_priority =>
    let new_max_priority_fee := max estimate_max_priority_fee bumped_priority
    match chkSub estimate_max_fee estimate_max_priority_fee with
    | none => none
    | some estimate_base_fee =>
      match chkSub prev_max_fee prev_max_priority_fee with
      | none => none
      | some prev_base_fee =>
        match increase_by_minimum prev_base_fee with
        | none => none
        | some bumped_base =>
          let new_base_fee := max estimate_base_fee bumped_base
          match chkAdd new_base_fee new_max_priority_fee with
          | none => none
          | some new_max_fee =>
            some { tx with
                     max_fee_per_gas := some new_max_fee,
                     max_priority_fee_per_gas := some new_max_priority_fee }

/-- Spec formula `bump(v) = v + floor(v*10/100) + 1` (spec §4.2). -/
def specBump (v : Nat) : Nat := v + v * 10 / 100 + 1

/-- Spec formula `newPriorityFee = max(estimatePriorityFee, bump(previousPriorityFee))`. -/
def specNewPriorityFee (estP prevP : Nat) : Nat := max estP (specBump prevP)

/-- Spec formula `newBaseFee = max(estimateMaxFee - estimatePriorityFee,
bump(previousMaxFee - previousPriorityFee))`. -/
def specNewBaseFee (estM estP prevM prevP : Nat) : Nat :=
  max (estM - estP) (specBump (prevM - prevP))

/-- Spec formula `newMaxFee = newBaseFee + newPriorityFee`. -/
def specNewMaxFee (estM estP prevM prevP : Nat) : Nat :=
  specNewBaseFee estM estP prevM prevP + specNewPriorityFee estP prevP

/-- Outcome of `Middleware::send_transaction`: a pending-transaction hash on
success, otherwise an error carrying its display message. -/
inductive SendResult where
  | success (hash : Nat)
  | failure (msg : String)
deriving DecidableEq, Repr

/-- Does the character list start with the pattern? (helper for the
`err.to_string().contains("nonce too low")` test in `rebroadcast`). -/
def charsStartWith : List Char → List Char → Bool
  | _, [] => true
  | [], _ :: _ => false
  | c :: cs, p :: ps => c == p && charsStartWith cs ps

/-- Does the character list contain the pattern as a contiguous run? -/
def charsContain : List Char → List Char → Bool
  | [], pat => pat.isEmpty
  | c :: cs, pat => charsStartWith (c :: cs) pat || charsContain cs pat

/-- `err.to_string().contains("nonce too low")` (mod.rs line 212). -/
def errIsNonceTooLow (msg : String) : Bool :=
  charsContain msg.toList (("nonce too low").toList)

/-- `TransactionMonitor::rebroadcast` (mod.rs lines 193-220).  `send` is the
provider's `send_transaction`.  The Rust function bumps `tx` in place and then
broadcasts it; here the bumped request is returned alongside the outcome.
Outer `none` is a `U256` arithmetic panic inside `bump_transaction`;
`Except.error` is the fatal branch re-raised at line 217; `Except.ok none` is
the silently absorbed nonce-too-low case (entry to be dropped). -/
def rebroadcast (send : Eip1559TransactionRequest → SendResult)
    (tx : Eip1559TransactionRequest)
    (estimate_max_fee estimate_max_priority_fee : Nat) :
    Option (Except String (Option Nat × Eip1559TransactionRequest)) :=
  match bump_transaction tx estimate_max_fee estimate_max_priority_fee with
  | none => none
  | some bumped =>
    match send bumped with
    | .success new_tx_hash => some (.ok (some new_tx_hash, bumped))
    | .failure err =>
      if errIsNonceTooLow err then some (.ok (none, bumped))
      else some (.error err)

/-- One element of `TransactionMonitor::txs`: the tuple
`(TxHash, Eip1559TransactionRequest, Option<BlockId>, Uuid)`, with the field
names taken from the destructuring at mod.rs line 147. -/
structure PendingTx where
  tx_hash : Nat
  replacement_tx : Eip1559TransactionRequest
  priority : Option Nat
  id : Nat
deriving DecidableEq, Repr

/-- The `for _ in 0..len` loop of `TransactionMonitor::monitor`
(mod.rs lines 145-187), parameterised by the remaining iteration count.
The `Vec` is a list with its head at the vector's END, so `txs.pop()` takes
the head and `txs.push(e)` is `e :: rest` — including the reinsertions at
lines 167 and 182, which push onto the very vector still being popped.
`none` models a panic (`expect` on an empty pop, or `U256` arithmetic);
`Except.error` is the `?`-propagated fatal rebroadcast failure. -/
def processEntries (block_frequency : Nat)
    (send : Eip1559TransactionRequest → SendResult)
    (blockTxs : List Nat)
    (block_count estimate_max_fee estimate_max_priority_fee : Nat) :
    Nat → List PendingTx → Option (Except String (List PendingTx))
  | 0, txs => some (.ok txs)
  | n + 1, txs =>
    match txs with
    | [] => none
    | e :: rest =>
      if blockTxs.contains e.tx_hash then
        processEntries block_frequency send blockTxs block_count
          estimate_max_fee estimate_max_priority_fee n rest
      else if block_count % block_frequency != 0 then
        processEntries block_frequency send blockTxs block_count
          estimate_max_fee estimate_max_priority_fee n (e :: rest)
      else
        match rebroadcast send e.replacement_tx
            estimate_max_fee estimate_max_priority_fee with
        | none => none
        | some (.error err) => some (.error err)
        | some (.ok (none, _)) =>
          processEntries block_frequency send blockTxs block_count
            estimate_max_fee estimate_max_priority_fee n rest
        | some (.ok (some new_txhash, bumped)) =>
          processEntries block_frequency send blockTxs block_count
            estimate_max_fee estimate_max_priority_fee n
            ({ tx_hash := new_txhash, replacement_tx := bumped,
               priority := e.priority, id := e.id } :: rest)

/-- What one `watch_blocks` notification delivers to the loop body: the mined
transaction hashes of the fetched block and the fresh per-tick fee estimate. -/
structure BlockObservation where
  transactions : List Nat
  estimate_max_fee : Nat
  estimate_max_priority_fee : Nat
deriving DecidableEq, Repr

/-- One full block tick of `TransactionMonitor::monitor`: `len = txs.len()`
then the popping loop (mod.rs lines 142-187). -/
def monitorTick (block_frequency : Nat)
    (send : Eip1559TransactionRequest → SendResult)
    (blk : BlockObservation) (block_count : Nat) (txs : List PendingTx) :
    Option (Except String (List PendingTx)) :=
  processEntries block_frequency send blk.transactions block_count
    blk.estimate_max_fee blk.estimate_max_priority_fee txs.length txs

/-- The `while let Some(block_hash) = watcher.next()` loop of
`TransactionMonitor::monitor` (mod.rs lines 123-188) over a finite prefix of
the block stream.  `block_count` is the `u8` counter incremented at line 126
before the tick (`% 256`: `u8` wrap-around; no claim exercises counts near
256, where a debug build would panic instead). -/
def monitorLoop (block_frequency : Nat)
    (send : Eip1559TransactionRequest → SendResult) :
    List BlockObservation → Nat → List PendingTx →
    Option (Except String (List PendingTx))
  | [], _, txs => some (.ok txs)
  | blk :: blks, block_count, txs =>
    match monitorTick block_frequency send blk ((block_count + 1) % 256) txs with
    | none => none
    | some (.error e) => some (.error e)
    | some (.ok txs2) =>
      monitorLoop block_frequency send blks ((block_count + 1) % 256) txs2

/-- `Status` (mod.rs lines 20-24). -/
inductive Status where
  | Pending
  | Complete
deriving DecidableEq, Repr

/-- `TransactionMonitor::get_transaction_status` (mod.rs lines 103-110):
find an entry whose fourth component equals `id`. -/
def get_transaction_status (txs : List PendingTx) (id : Nat) : Status :=
  match txs.find? (fun e => id == e.id) with
  | none => Status.Complete
  | some _ => Status.Pending

/-- The provider responses `send_monitored_transaction` consumes, one call
each: `estimate_eip1559_fees`, `fill_transaction` (the filled request read
back through `.into()`), and `send_transaction`. -/
structure SubmitProvider where
  estimate_eip1559_fees : Except String (Nat × Nat)
  fill_transaction :
    Eip1559TransactionRequest → Except String Eip1559TransactionRequest
  send_transaction : Eip1559TransactionRequest → SendResult

/-- `TransactionMonitor::send_monitored_transaction` (mod.rs lines 64-100).
`newId` stands for the fresh `Uuid::new_v4()`.  The returned pair is the
call's `Result` together with the registry after the call: every `?`-return
happens before `txs.lock().push(..)`, so the error paths return `txs`
untouched.  The `with_context` wrappers replace the provider error text. -/
def send_monitored_transaction (p : SubmitProvider) (newId : Nat)
    (tx : Eip1559TransactionRequest) (block : Option Nat)
    (txs : List PendingTx) : Except String Nat × List PendingTx :=
  match (if tx.max_fee_per_gas.isNone || tx.max_priority_fee_per_gas.isNone then
           match p.estimate_eip1559_fees with
           | .error _ => Except.error ("error estimating gas")
           | .ok (estimate_max_fee, estimate_max_priority_fee) =>
             Except.ok { tx with
                           max_fee_per_gas := some estimate_max_fee,
                           max_priority_fee_per_gas :=
                             some estimate_max_priority_fee }
         else Except.ok tx) with
  | .error e => (.error e, txs)
  | .ok with_gas =>
    match p.fill_transaction with_gas with
    | .error _ => (.error ("error while filling transaction"), txs)
    | .ok filled =>
      match p.send_transaction filled with
      | .failure _ => (.error ("error sending transaction"), txs)
      | .success pending_hash =>
        (.ok newId,
         { tx_hash := pending_hash, replacement_tx := filled,
           priority := block, id := newId } :: txs)

/-- A concrete request with the two fee fields set, used as test input. -/
def reqWithFees (m p : Nat) : Eip1559TransactionRequest :=
  { fromAddress := none, toAddress := some 5, gas := some 21000,
    value := some 1, data := none, nonce := some 0, access_list := [],
    max_priority_fee_per_gas := some p, max_fee_per_gas := some m,
    chain_id := some 1 }

/-- A deterministic provider send: accepts every request, hashing it to its
`max_fee_per_gas` (so successive escalations get distinct hashes). -/
def sendByFee : Eip1559TransactionRequest → SendResult :=
  fun r => SendResult.success (r.max_fee_per_gas.getD 0)

/-- A provider send that always reports the nonce as superseded. -/
def sendNonceLow : Eip1559TransactionRequest → SendResult :=
  fun _ => SendResult.failure ("nonce too low")

/-- A provider whose three calls all succeed, with fixed estimate (200, 100)
and fixed broadcast hash 99. -/
def okProvider : SubmitProvider :=
  { estimate_eip1559_fees := Except.ok (200, 100),
    fill_transaction := fun r => Except.ok r,
    send_transaction := fun _ => SendResult.success 99 }

/-- A provider whose fee estimation fails. -/
def estimateFailProvider : SubmitProvider :=
  { estimate_eip1559_fees := Except.error ("rpc down"),
    fill_transaction := fun r => Except.ok r,
    send_transaction := fun _ => SendResult.success 99 }

theorem increase_by_minimum_some (v w : Nat) :
    increase_by_minimum v = some w ↔
      v * 10 < U256_LIMIT ∧ v + v * 10 / 100 < U256_LIMIT ∧
      v + v * 10 / 100 + 1 < U256_LIMIT ∧ w = v + v * 10 / 100 + 1 := by
  unfold increase_by_minimum chkMul chkAdd
  by_cases h1 : v * 10 < U256_LIMIT <;>
    by_cases h2 : v + v * 10 / 100 < U256_LIMIT <;>
      by_cases h3 : v + v * 10 / 100 + 1 < U256_LIMIT <;>
        simp [h1, h2, h3, eq_comm]

theorem increase_by_minimum_eq (v : Nat) (h : v * 10 < U256_LIMIT) :
    increase_by_minimum v = some (specBump v) := by
  have hL : 2 ≤ U256_LIMIT := by norm_num [U256_LIMIT]
  rw [increase_by_minimum_some, specBump]
  refine ⟨h, by omega, by omega, rfl⟩

/-- Claim C2: for fee inputs in the representable range (each priority fee at
most its paired max fee, no 256-bit overflow), `bump_transaction` computes
exactly the spec's formulas: `bump(v) = v + floor(v*10/100) + 1` (so
`bump(1000) = 1101`, `bump(0) = 1`), `newPriorityFee =
max(estimatePriorityFee, bump(previousPriorityFee))`, `newBaseFee =
max(estimateMaxFee - estimatePriorityFee, bump(previousMaxFee -
previousPriorityFee))`, `newMaxFee = newBaseFee + newPriorityFee`; hence
`newPriorityFee ≥ estimatePriorityFee` and `newMaxFee = newBaseFee +
newPriorityFee` with no drift. -/
theorem bump_transaction_matches_spec (tx : Eip1559TransactionRequest)
    (estM estP : Nat)
    (hest : estP ≤ estM)
    (hprev : tx.max_priority_fee_per_gas.getD estP ≤
      tx.max_fee_per_gas.getD estM)
    (hovP : tx.max_fee_per_gas.getD estM * 10 < U256_LIMIT)
    (hovE : estM * 10 < U256_LIMIT) :
    specBump 1000 = 1101 ∧ specBump 0 = 1 ∧
    bump_transaction tx estM estP = some { tx with
      max_priority_fee_per_gas :=
        some (specNewPriorityFee estP (tx.max_priority_fee_per_gas.getD estP)),
      max_fee_per_gas :=
        some (specNewMaxFee estM estP (tx.max_fee_per_gas.getD estM)
          (tx.max_priority_fee_per_gas.getD estP)) } ∧
    estP ≤ specNewPriorityFee estP (tx.max_priority_fee_per_gas.getD estP) ∧
    specNewMaxFee estM estP (tx.max_fee_per_gas.getD estM)
        (tx.max_priority_fee_per_gas.getD estP) =
      specNewBaseFee estM estP (tx.max_fee_per_gas.getD estM)
        (tx.max_priority_fee_per_gas.getD estP) +
      specNewPriorityFee estP (tx.max_priority_fee_per_gas.getD estP) := by
  have hL : 100 ≤ U256_LIMIT := by norm_num [U256_LIMIT]
  have h1 : tx.max_priority_fee_per_gas.getD estP * 10 < U256_LIMIT := by omega
  have hinc1 := increase_by_minimum_eq _ h1
  have h2 : (tx.max_fee_per_gas.getD estM -
      tx.max_priority_fee_per_gas.getD estP) * 10 < U256_LIMIT := by omega
  have hinc2 := increase_by_minimum_eq _ h2
  have hfinal : max (estM - estP)
        (specBump (tx.max_fee_per_gas.getD estM -
          tx.max_priority_fee_per_gas.getD estP)) +
      max estP (specBump (tx.max_priority_fee_per_gas.getD estP)) <
      U256_LIMIT := by
    have hb1 : max (estM - estP)
        (specBump (tx.max_fee_per_gas.getD estM -
          tx.max_priority_fee_per_gas.getD estP)) ≤
        (estM - estP) + specBump (tx.max_fee_per_gas.getD estM -
          tx.max_priority_fee_per_gas.getD estP) :=
      max_le (Nat.le_add_right _ _) (Nat.le_add_left _ _)
    have hb2 : max estP (specBump (tx.max_priority_fee_per_gas.getD estP)) ≤
        estP + specBump (tx.max_priority_fee_per_gas.getD estP) :=
      max_le (Nat.le_add_right _ _) (Nat.le_add_left _ _)
    simp only [specBump] at hb1 hb2 ⊢
    omega
  refine ⟨rfl, rfl, ?_, le_max_left _ _, rfl⟩
  simp only [bump_transaction, hinc1, hinc2, chkSub, chkAdd, hest, hprev,
    if_true, hfinal, specNewMaxFee, specNewBaseFee, specNewPriorityFee]

/-- Witness for C2 at a concrete in-range input. -/
theorem bump_transaction_matches_spec_witness :
    bump_transaction (reqWithFees 200 100) 150 50 =
      some (reqWithFees (specNewMaxFee 150 50 200 100)
        (specNewPriorityFee 50 100)) ∧
    50 ≤ specNewPriorityFee 50 100 := by
  have h := bump_transaction_matches_spec (reqWithFees 200 100) 150 50
    (by norm_num) (by norm_num [reqWithFees])
    (by norm_num [reqWithFees, U256_LIMIT]) (by norm_num [U256_LIMIT])
  exact ⟨h.2.2.1, h.2.2.2.1⟩

/-- Claim C3: whenever `increase_by_minimum` returns a value (no 256-bit
overflow), the bumped value strictly exceeds an exact 10% increase of the
input even under integer truncation: `10 * bump(v) > 11 * v`. -/
theorem increase_by_minimum_strict_ten_percent (v w : Nat)
    (h : increase_by_minimum v = some w) : 10 * w > 11 * v := by
  rw [increase_by_minimum_some] at h
  omega

/-- Witness for C3 at `v = 1000`. -/
theorem increase_by_minimum_strict_ten_percent_witness :
    10 * 1101 > 11 * 1000 :=
  increase_by_minimum_strict_ten_percent 1000 1101 (by rfl)

/-- Claim C10: `bump_transaction` is total only when each max fee is at least
its paired priority fee: if the fresh estimate pair or the (defaulted)
previous pair has its priority fee above its max fee, the base-fee
subtraction underflows `U256` and the computation aborts (`none`) instead of
returning a value. -/
theorem bump_transaction_underflow_aborts (tx : Eip1559TransactionRequest)
    (eM eP : Nat)
    (h : eM < eP ∨
      tx.max_fee_per_gas.getD eM < tx.max_priority_fee_per_gas.getD eP) :
    bump_transaction tx eM eP = none := by
  simp only [bump_transaction, chkSub]
  cases hinc : increase_by_minimum (tx.max_priority_fee_per_gas.getD eP) with
  | none => rfl
  | some bp =>
    rcases h with h | h
    · simp [Nat.not_le.mpr h]
    · rcases Nat.lt_or_ge eM eP with hlt | hge
      · simp [Nat.not_le.mpr hlt]
      · simp [hge, Nat.not_le.mpr h]

/-- Witness for C10: a previous pair with priority fee 200 above max fee 100
makes the computation abort. -/
theorem bump_transaction_underflow_aborts_witness :
    bump_transaction (reqWithFees 100 200) 500 400 = none :=
  bump_transaction_underflow_aborts (reqWithFees 100 200) 500 400
    (Or.inr (by decide))

theorem bump_transaction_frame (tx t' : Eip1559TransactionRequest)
    (a b : Nat) (h : bump_transaction tx a b = some t') :
    t'.fromAddress = tx.fromAddress ∧ t'.toAddress = tx.toAddress ∧
    t'.gas = tx.gas ∧ t'.value = tx.value ∧ t'.data = tx.data ∧
    t'.nonce = tx.nonce ∧ t'.access_list = tx.access_list ∧
    t'.chain_id = tx.chain_id := by
  simp only [bump_transaction] at h
  split at h
  · exact Option.noConfusion h
  · split at h
    · exact Option.noConfusion h
    · split at h
      · exact Option.noConfusion h
      · split at h
        · exact Option.noConfusion h
        · split at h
          · exact Option.noConfusion h
          · injection h with h
            subst h
            exact ⟨rfl, rfl, rfl, rfl, rfl, rfl, rfl, rfl⟩

/-- Claim C9: an escalation step of the watch loop replaces the popped entry
by one with the rebroadcast hash and the bumped request, keeping the same
`priority` (submission target) and `id` (tracking id); and the bumped request
agrees with the previous request on every field other than the two fees:
sender, recipient, gas limit, value, payload, nonce, access list, chain id. -/
theorem rebroadcast_updates_only_fees_and_hash (block_frequency : Nat)
    (send : Eip1559TransactionRequest → SendResult) (blockTxs : List Nat)
    (block_count estimate_max_fee estimate_max_priority_fee n : Nat)
    (e : PendingTx) (rest : List PendingTx)
    (bumped : Eip1559TransactionRequest) (newHash : Nat)
    (hnotin : blockTxs.contains e.tx_hash = false)
    (hdue : block_count % block_frequency = 0)
    (hbump : bump_transaction e.replacement_tx estimate_max_fee
      estimate_max_priority_fee = some bumped)
    (hsend : send bumped = SendResult.success newHash) :
    processEntries block_frequency send blockTxs block_count
        estimate_max_fee estimate_max_priority_fee (n + 1) (e :: rest) =
      processEntries block_frequency send blockTxs block_count
        estimate_max_fee estimate_max_priority_fee n
        ({ tx_hash := newHash, replacement_tx := bumped,
           priority := e.priority, id := e.id } :: rest) ∧
    bumped.fromAddress = e.replacement_tx.fromAddress ∧
    bumped.toAddress = e.replacement_tx.toAddress ∧
    bumped.gas = e.replacement_tx.gas ∧
    bumped.value = e.replacement_tx.value ∧
    bumped.data = e.replacement_tx.data ∧
    bumped.nonce = e.replacement_tx.nonce ∧
    bumped.access_list = e.replacement_tx.access_list ∧
    bumped.chain_id = e.replacement_tx.chain_id := by
  have hreb : rebroadcast send e.replacement_tx estimate_max_fee
      estimate_max_priority_fee = some (.ok (some newHash, bumped)) := by
    simp [rebroadcast, hbump, hsend]
  have hnotin2 : e.tx_hash ∉ blockTxs := by simpa using hnotin
  refine ⟨?_, bump_transaction_frame _ _ _ _ hbump⟩
  simp [processEntries, hnotin2, hdue, hreb]

/-- Witness for C9: one escalation step at cadence position 3 on a singleton
registry. -/
theorem rebroadcast_updates_only_fees_and_hash_witness :
    processEntries 3 sendByFee [] 3 200 100 1
        [{ tx_hash := 2, replacement_tx := reqWithFees 200 100,
           priority := none, id := 50 }] =
      processEntries 3 sendByFee [] 3 200 100 0
        [{ tx_hash := 222, replacement_tx := reqWithFees 222 111,
           priority := none, id := 50 }] :=
  (rebroadcast_updates_only_fees_and_hash 3 sendByFee [] 3 200 100 0
    { tx_hash := 2, replacement_tx := reqWithFees 200 100,
      priority := none, id := 50 }
    [] (reqWithFees 222 111) 222 rfl rfl rfl rfl).1

/-- Claim C8: when the send of an escalated entry fails, the error text
decides the outcome: a message containing the nonce-superseded marker makes
the loop drop the entry and continue with no error; any other failure makes
the whole tick return that error (and the loop stops with it), with no
per-entry retry. -/
theorem rebroadcast_failure_classification (block_frequency : Nat)
    (send : Eip1559TransactionRequest → SendResult) (blockTxs : List Nat)
    (block_count estimate_max_fee estimate_max_priority_fee n : Nat)
    (e : PendingTx) (rest : List PendingTx)
    (bumped : Eip1559TransactionRequest) (msg : String)
    (hnotin : blockTxs.contains e.tx_hash = false)
    (hdue : block_count % block_frequency = 0)
    (hbump : bump_transaction e.replacement_tx estimate_max_fee
      estimate_max_priority_fee = some bumped)
    (hsend : send bumped = SendResult.failure msg) :
    (errIsNonceTooLow msg = true →
      processEntries block_frequency send blockTxs block_count
          estimate_max_fee estimate_max_priority_fee (n + 1) (e :: rest) =
        processEntries block_frequency send blockTxs block_count
          estimate_max_fee estimate_max_priority_fee n rest) ∧
    (errIsNonceTooLow msg = false →
      processEntries block_frequency send blockTxs block_count
          estimate_max_fee estimate_max_priority_fee (n + 1) (e :: rest) =
        some (Except.error msg)) ∧
    (∀ (blk : BlockObservation) (blks : List BlockObservation)
       (bc0 : Nat) (txs0 : List PendingTx) (m : String),
      monitorTick block_frequency send blk ((bc0 + 1) % 256) txs0 =
        some (Except.error m) →
      monitorLoop block_frequency send (blk :: blks) bc0 txs0 =
        some (Except.error m)) := by
  refine ⟨?_, ?_, ?_⟩
  · intro hlow
    have hreb : rebroadcast send e.replacement_tx estimate_max_fee
        estimate_max_priority_fee = some (.ok (none, bumped)) := by
      simp [rebroadcast, hbump, hsend, hlow]
    have hnotin2 : e.tx_hash ∉ blockTxs := by simpa using hnotin
    simp [processEntries, hnotin2, hdue, hreb]
  · intro hlow
    have hreb : rebroadcast send e.replacement_tx estimate_max_fee
        estimate_max_priority_fee = some (.error msg) := by
      simp [rebroadcast, hbump, hsend, hlow]
    have hnotin2 : e.tx_hash ∉ blockTxs := by simpa using hnotin
    simp [processEntries, hnotin2, hdue, hreb]
  · intro blk blks bc0 txs0 m hm
    simp [monitorLoop, hm]

/-- Witness for C8: a nonce-superseded failure silently drops the only
entry. -/
theorem rebroadcast_failure_classification_witness :
    processEntries 3 sendNonceLow [] 3 200 100 1
        [{ tx_hash := 2, replacement_tx := reqWithFees 200 100,
           priority := none, id := 40 }] =
      processEntries 3 sendNonceLow [] 3 200 100 0 [] :=
  (rebroadcast_failure_classification 3 sendNonceLow [] 3 200 100 0
    { tx_hash := 2, replacement_tx := reqWithFees 200 100,
      priority := none, id := 40 }
    [] (reqWithFees 222 111) ("nonce too low") rfl rfl rfl rfl).1 (by decide)

theorem send_monitored_transaction_cases (p : SubmitProvider) (newId : Nat)
    (tx : Eip1559TransactionRequest) (block : Option Nat)
    (txs : List PendingTx) :
    (∃ msg, send_monitored_transaction p newId tx block txs =
      (Except.error msg, txs)) ∨
    ∃ hsh filled, send_monitored_transaction p newId tx block txs =
      (Except.ok newId,
       { tx_hash := hsh, replacement_tx := filled,
         priority := block, id := newId } :: txs) := by
  unfold send_monitored_transaction
  split
  · exact Or.inl ⟨_, rfl⟩
  · split
    · exact Or.inl ⟨_, rfl⟩
    · split
      · exact Or.inl ⟨_, rfl⟩
      · exact Or.inr ⟨_, _, rfl⟩

/-- Claim C7: if any step of `send_monitored_transaction` before registry
insertion fails — fee estimation, transaction filling, or broadcast — the
call returns an error and the registry is exactly what it was: no entry is
created. -/
theorem submit_error_leaves_registry_unchanged (p : SubmitProvider)
    (newId : Nat) (tx : Eip1559TransactionRequest) (block : Option Nat)
    (txs : List PendingTx) (msg : String)
    (h : (send_monitored_transaction p newId tx block txs).1 =
      Except.error msg) :
    (send_monitored_transaction p newId tx block txs).2 = txs := by
  rcases send_monitored_transaction_cases p newId tx block txs with
    ⟨m, heq⟩ | ⟨hsh, filled, heq⟩
  · rw [heq]
  · rw [heq] at h
    exact absurd h (by simp)

/-- Witness for C7: a failing fee estimation aborts the call and leaves a
one-entry registry unchanged. -/
theorem submit_error_leaves_registry_unchanged_witness :
    (send_monitored_transaction estimateFailProvider 60
        { fromAddress := none, toAddress := some 5, gas := none,
          value := some 1, data := none, nonce := none, access_list := [],
          max_priority_fee_per_gas := none, max_fee_per_gas := none,
          chain_id := none }
        none
        [{ tx_hash := 9, replacement_tx := reqWithFees 200 100,
           priority := none, id := 61 }]).2 =
      [{ tx_hash := 9, replacement_tx := reqWithFees 200 100,
         priority := none, id := 61 }] :=
  submit_error_leaves_registry_unchanged estimateFailProvider 60
    { fromAddress := none, toAddress := some 5, gas := none,
      value := some 1, data := none, nonce := none, access_list := [],
      max_priority_fee_per_gas := none, max_fee_per_gas := none,
      chain_id := none }
    none
    [{ tx_hash := 9, replacement_tx := reqWithFees 200 100,
       priority := none, id := 61 }]
    ("error estimating gas") rfl

/-- Claim C6: `get_transaction_status` answers `Pending` exactly when an
entry with the queried id is currently in the registry and `Complete`
otherwise (so also for ids never submitted), and a successful
`send_monitored_transaction` immediately followed by a status query on the
returned id answers `Pending`. -/
theorem status_pending_iff_present (txs : List PendingTx) (i : Nat)
    (p : SubmitProvider) (newId : Nat) (tx : Eip1559TransactionRequest)
    (block : Option Nat) :
    (get_transaction_status txs i = Status.Pending ↔ ∃ e ∈ txs, e.id = i) ∧
    (get_transaction_status txs i = Status.Complete ↔
      ¬ ∃ e ∈ txs, e.id = i) ∧
    (∀ r, send_monitored_transaction p newId tx block txs =
        (Except.ok newId, r) →
      get_transaction_status r newId = Status.Pending) := by
  have hmain : get_transaction_status txs i = Status.Pending ↔
      ∃ e ∈ txs, e.id = i := by
    unfold get_transaction_status
    cases hf : txs.find? (fun e => i == e.id) with
    | none =>
      have hnone := List.find?_eq_none.mp hf
      constructor
      · intro h
        exact absurd h (by decide)
      · rintro ⟨e, he, hei⟩
        exact absurd (by simp [hei] : (i == e.id) = true)
          (by simpa using hnone e he)
    | some e =>
      constructor
      · intro _
        refine ⟨e, List.mem_of_find?_eq_some hf, ?_⟩
        have hp := List.find?_some hf
        simp only [beq_iff_eq] at hp
        exact hp.symm
      · intro _
        rfl
  refine ⟨hmain, ?_, ?_⟩
  · constructor
    · intro h hx
      rw [← hmain] at hx
      rw [h] at hx
      exact absurd hx (by decide)
    · intro hx
      cases hst : get_transaction_status txs i with
      | Pending => exact absurd (hmain.mp hst) hx
      | Complete => rfl
  · intro r hr
    rcases send_monitored_transaction_cases p newId tx block txs with
      ⟨m, heq⟩ | ⟨hsh, filled, heq⟩
    · rw [heq] at hr
      exact absurd (congrArg Prod.fst hr) (by simp)
    · rw [heq] at hr
      have hr2 : ({ tx_hash := hsh, replacement_tx := filled,
                    priority := block, id := newId } :: txs :
          List PendingTx) = r := by
        simpa using congrArg Prod.snd hr
      rw [← hr2]
      unfold get_transaction_status
      rw [List.find?_cons_of_pos]
      simp

/-- Witness for C6: a fresh submission on an empty registry is immediately
`Pending`, and an id absent from the registry is `Complete`. -/
theorem status_pending_iff_present_witness :
    get_transaction_status [] 42 = Status.Complete ∧
    (∀ r, send_monitored_transaction okProvider 42 (reqWithFees 200 100)
        none [] = (Except.ok 42, r) →
      get_transaction_status r 42 = Status.Pending) ∧
    get_transaction_status
      [{ tx_hash := 99, replacement_tx := reqWithFees 200 100,
         priority := none, id := 42 }] 42 = Status.Pending := by
  have h := status_pending_iff_present [] 42 okProvider 42
    (reqWithFees 200 100) none
  refine ⟨h.2.1.mpr (by simp), h.2.2, h.2.2 _ rfl⟩

/-- Claim C1 is violated by the code: in one block tick over the registry
(vector bottom-to-top: entry id 10 with hash 1, then entry id 11 with hash
2), each loop iteration pops the TOP entry and — when it keeps it — pushes
it straight back on top, so both iterations evaluate entry 11 and entry 10
is never evaluated.  First conjunct: on a non-escalation tick
(`block_count = 1`, cadence 3) with entry 10's hash mined in the block, the
tick returns the registry unchanged — had entry 10 been evaluated it would
have been dropped as included.  Second conjunct: on an escalation tick
(`block_count = 3`) entry 11 is escalated twice in the one tick (fees
(200,100) → (222,111) → (246,123)) while entry 10 keeps fees (200,100). -/
theorem monitor_tick_reevaluates_top_entry_and_skips_rest :
    processEntries 3 sendByFee [1] 1 200 100 2
        [{ tx_hash := 2, replacement_tx := reqWithFees 200 100,
           priority := none, id := 11 },
         { tx_hash := 1, replacement_tx := reqWithFees 200 100,
           priority := none, id := 10 }] =
      some (Except.ok
        [{ tx_hash := 2, replacement_tx := reqWithFees 200 100,
           priority := none, id := 11 },
         { tx_hash := 1, replacement_tx := reqWithFees 200 100,
           priority := none, id := 10 }]) ∧
    processEntries 3 sendByFee [] 3 200 100 2
        [{ tx_hash := 2, replacement_tx := reqWithFees 200 100,
           priority := none, id := 11 },
         { tx_hash := 1, replacement_tx := reqWithFees 200 100,
           priority := none, id := 10 }] =
      some (Except.ok
        [{ tx_hash := 246, replacement_tx := reqWithFees 246 123,
           priority := none, id := 11 },
         { tx_hash := 1, replacement_tx := reqWithFees 200 100,
           priority := none, id := 10 }]) :=
  ⟨rfl, rfl⟩

/-- Claim C4 is violated by the code for registries with more than one
entry: on the 3rd observed block (`block_count = 3`, cadence 3), with no
entry included in the block, the tick rebroadcasts the top entry (id 21)
twice — double-escalating its fees (400,200) → (488,244) — and never
rebroadcasts the bottom entry (id 20), whose request keeps its original
fees; the claim requires every unincluded tracked entry to be rebroadcast
exactly once with escalated fees on that block. -/
theorem third_block_escalation_misses_bottom_entry :
    processEntries 3 sendByFee [] 3 400 200 2
        [{ tx_hash := 2, replacement_tx := reqWithFees 400 200,
           priority := none, id := 21 },
         { tx_hash := 1, replacement_tx := reqWithFees 400 200,
           priority := none, id := 20 }] =
      some (Except.ok
        [{ tx_hash := 488, replacement_tx := reqWithFees 488 244,
           priority := none, id := 21 },
         { tx_hash := 1, replacement_tx := reqWithFees 400 200,
           priority := none, id := 20 }]) :=
  rfl

/-- Claim C5 is violated by the code: the watch loop observes one block
whose mined transactions contain entry 30's current hash (7), yet — because
every iteration of the tick pops and reinserts the unrelated top entry
(id 31) — entry 30 is never examined, stays in the registry, and a status
query for tracking id 30 after the tick still answers `Pending` instead of
`Complete`. -/
theorem mined_entry_survives_tick_and_stays_pending :
    monitorLoop 3 sendByFee
        [{ transactions := [7], estimate_max_fee := 200,
           estimate_max_priority_fee := 100 }] 0
        [{ tx_hash := 8, replacement_tx := reqWithFees 200 100,
           priority := none, id := 31 },
         { tx_hash := 7, replacement_tx := reqWithFees 200 100,
           priority := none, id := 30 }] =
      some (Except.ok
        [{ tx_hash := 8, replacement_tx := reqWithFees 200 100,
           priority := none, id := 31 },
         { tx_hash := 7, replacement_tx := reqWithFees 200 100,
           priority := none, id := 30 }]) ∧
    get_transaction_status
        [{ tx_hash := 8, replacement_tx := reqWithFees 200 100,
           priority := none, id := 31 },
         { tx_hash := 7, replacement_tx := reqWithFees 200 100,
           priority := none, id := 30 }] 30 = Status.Pending :=
  ⟨rfl, rfl⟩

end Relay
